import Mathlib

set_option maxRecDepth 100000

/-!
Verification of the pyGravatar library (`gravatar.py`): a shallow embedding
of the `Gravatar` class, its URL assembly, validation errors, and profile
views, with theorems checking the natural-language specification.
-/

namespace gravatar

/-! ## MD5 (as used by `hashlib.md5(...).hexdigest()` in `Gravatar.__init__`)

Bytes and 32-bit words are modelled as `Nat` with explicit reduction
modulo `2 ^ 32`.
-/

/-- 32-bit truncation. -/
def mask32 (n : Nat) : Nat := n % 4294967296

/-- Addition modulo `2 ^ 32`. -/
def add32 (a b : Nat) : Nat := mask32 (a + b)

/-- Bitwise complement on 32 bits. -/
def not32 (a : Nat) : Nat := 4294967295 - mask32 a

/-- Rotate a 32-bit word left by `n` bits. -/
def rotl32 (x n : Nat) : Nat :=
  mask32 ((mask32 x >>> (32 - n)) ||| (mask32 x <<< n))

/-- MD5 round function F (rounds 0–15). -/
def md5F (b c d : Nat) : Nat := (b &&& c) ||| (not32 b &&& d)

/-- MD5 round function G (rounds 16–31). -/
def md5G (b c d : Nat) : Nat := (b &&& d) ||| (c &&& not32 d)

/-- MD5 round function H (rounds 32–47). -/
def md5H (b c d : Nat) : Nat := b ^^^ c ^^^ d

/-- MD5 round function I (rounds 48–63). -/
def md5I (b c d : Nat) : Nat := c ^^^ (b ||| not32 d)

/-- MD5 per-round left-rotation amounts. -/
def md5S : List Nat :=
  [7, 12, 17, 22, 7, 12, 17, 22, 7, 12, 17, 22, 7, 12, 17, 22,
   5, 9, 14, 20, 5, 9, 14, 20, 5, 9, 14, 20, 5, 9, 14, 20,
   4, 11, 16, 23, 4, 11, 16, 23, 4, 11, 16, 23, 4, 11, 16, 23,
   6, 10, 15, 21, 6, 10, 15, 21, 6, 10, 15, 21, 6, 10, 15, 21]

/-- MD5 per-round additive constants (`floor(abs(sin(i + 1)) * 2 ^ 32)`). -/
def md5K : List Nat :=
  [0xd76aa478, 0xe8c7b756, 0x242070db, 0xc1bdceee,
   0xf57c0faf, 0x4787c62a, 0xa8304613, 0xfd469501,
   0x698098d8, 0x8b44f7af, 0xffff5bb1, 0x895cd7be,
   0x6b901122, 0xfd987193, 0xa679438e, 0x49b40821,
   0xf61e2562, 0xc040b340, 0x265e5a51, 0xe9b6c7aa,
   0xd62f105d, 0x02441453, 0xd8a1e681, 0xe7d3fbc8,
   0x21e1cde6, 0xc33707d6, 0xf4d50d87, 0x455a14ed,
   0xa9e3e905, 0xfcefa3f8, 0x676f02d9, 0x8d2a4c8a,
   0xfffa3942, 0x8771f681, 0x6d9d6122, 0xfde5380c,
   0xa4beea44, 0x4bdecfa9, 0xf6bb4b60, 0xbebfbc70,
   0x289b7ec6, 0xeaa127fa, 0xd4ef3085, 0x04881d05,
   0xd9d4d039, 0xe6db99e5, 0x1fa27cf8, 0xc4ac5665,
   0xf4292244, 0x432aff97, 0xab9423a7, 0xfc93a039,
   0x655b59c3, 0x8f0ccc92, 0xffeff47d, 0x85845dd1,
   0x6fa87e4f, 0xfe2ce6e0, 0xa3014314, 0x4e0811a1,
   0xf7537e82, 0xbd3af235, 0x2ad7d2bb, 0xeb86d391]

/-- One MD5 round: given the round index `i`, the 16 message words `m`, and
the state `(a, b, c, d)`, produce the next state. -/
def md5Round (m : List Nat) (st : Nat × Nat × Nat × Nat) (i : Nat) :
    Nat × Nat × Nat × Nat :=
  let (a, b, c, d) := st
  let (f, g) :=
    if i < 16 then (md5F b c d, i)
    else if i < 32 then (md5G b c d, (5 * i + 1) % 16)
    else if i < 48 then (md5H b c d, (3 * i + 5) % 16)
    else (md5I b c d, (7 * i) % 16)
  let x := add32 (add32 (add32 a f) (md5K.getD i 0)) (m.getD g 0)
  (d, add32 b (rotl32 x (md5S.getD i 0)), b, c)

/-- Decode a list of bytes into little-endian 32-bit words. -/
def leWords : List Nat → List Nat
  | b0 :: b1 :: b2 :: b3 :: rest =>
      (b0 + b1 * 256 + b2 * 65536 + b3 * 16777216) :: leWords rest
  | _ => []

/-- Process one 64-byte block, updating the 4-word state. -/
def md5Block (st : Nat × Nat × Nat × Nat) (block : List Nat) :
    Nat × Nat × Nat × Nat :=
  let m := leWords block
  let (a0, b0, c0, d0) := st
  let (a, b, c, d) := (List.range 64).foldl (md5Round m) st
  (add32 a0 a, add32 b0 b, add32 c0 c, add32 d0 d)

/-- MD5 padding: append `0x80`, zero bytes to 56 mod 64, then the
64-bit little-endian bit length. -/
def md5Pad (msg : List Nat) : List Nat :=
  let len := msg.length
  let zeros := (119 - len % 64) % 64
  let bits := len * 8
  msg ++ [0x80] ++ List.replicate zeros 0 ++
    (List.range 8).map (fun i => (bits >>> (8 * i)) % 256)

/-- Split a byte list into 64-byte chunks (structurally recursive on a fuel
bound, so it reduces by evaluation; the fuel `l.length` always suffices). -/
def chunks64Go : Nat → List Nat → List (List Nat)
  | _, [] => []
  | 0, _ => []
  | fuel + 1, b :: rest =>
      ((b :: rest).take 64) :: chunks64Go fuel ((b :: rest).drop 64)

/-- Split a byte list into 64-byte chunks. -/
def chunks64 (l : List Nat) : List (List Nat) := chunks64Go l.length l

/-- Two lowercase hexadecimal digits of a byte. -/
def byteHex (b : Nat) : List Char :=
  let hexDigit : Nat → Char := fun n =>
    if n < 10 then Char.ofNat (48 + n) else Char.ofNat (87 + n)
  [hexDigit (b / 16 % 16), hexDigit (b % 16)]

/-- Serialize a 32-bit word as 4 little-endian bytes. -/
def leBytes (w : Nat) : List Nat :=
  [w % 256, w / 256 % 256, w / 65536 % 256, w / 16777216 % 256]

/-- MD5 digest of a byte list, rendered as 32 lowercase hex characters
(the value of `hexdigest()`). -/
def md5hex (msg : List Nat) : String :=
  let init : Nat × Nat × Nat × Nat :=
    (0x67452301, 0xefcdab89, 0x98badcfe, 0x10325476)
  let (a, b, c, d) := (chunks64 (md5Pad msg)).foldl md5Block init
  ⟨((leBytes a ++ leBytes b ++ leBytes c ++ leBytes d).map byteHex).flatten⟩

/-! ## Python string primitives used by `gravatar.py` -/

/-- Python `str.lower` on one character (ASCII range, the case relevant to
email addresses and rating codes). -/
def pyToLower (c : Char) : Char :=
  if 65 ≤ c.toNat ∧ c.toNat ≤ 90 then Char.ofNat (c.toNat + 32) else c

/-- Python `str.lower`. -/
def pyLower (s : String) : String := ⟨s.data.map pyToLower⟩

/-- Whitespace recognized by Python `str.strip()` (ASCII range). -/
def pySpace (c : Char) : Bool :=
  decide (c.toNat = 32 ∨ (9 ≤ c.toNat ∧ c.toNat ≤ 13))

/-- Python `str.strip()` on a character list: drop leading and trailing
whitespace. -/
def stripList (l : List Char) : List Char :=
  ((l.dropWhile pySpace).reverse.dropWhile pySpace).reverse

/-- Python `str.strip()`. -/
def pyStrip (s : String) : String := ⟨stripList s.data⟩

/-- UTF-8 encoding of one character (Python `str.encode()`). -/
def utf8Bytes (c : Char) : List Nat :=
  let n := c.toNat
  if n < 128 then [n]
  else if n < 2048 then
    [0xC0 ||| (n >>> 6), 0x80 ||| (n &&& 63)]
  else if n < 65536 then
    [0xE0 ||| (n >>> 12), 0x80 ||| ((n >>> 6) &&& 63), 0x80 ||| (n &&& 63)]
  else
    [0xF0 ||| (n >>> 18), 0x80 ||| ((n >>> 12) &&& 63),
     0x80 ||| ((n >>> 6) &&& 63), 0x80 ||| (n &&& 63)]

/-- Python `str.encode()`: UTF-8 bytes of a string. -/
def encode (s : String) : List Nat := (s.data.map utf8Bytes).flatten

/-- `md5(email.strip().lower().encode()).hexdigest()` from
`Gravatar.__init__`. -/
def emailHash (email : String) : String :=
  md5hex (encode (pyLower (pyStrip email)))

/-! ## Module-level constants of `gravatar.py` -/

def BASE_URL : String := "http://www.gravatar.com/avatar/"

def SECURE_BASE_URL : String := "https://secure.gravatar.com/avatar/"

def PROFILE_URL : String := "http://www.gravatar.com/"

def RATINGS : List String := ["g", "pg", "r", "x"]

def MAX_SIZE : Int := 512

def MIN_SIZE : Int := 1

def DEFAULTS : List String :=
  ["404", "mm", "identicon", "monsterid", "wavatar", "retro"]

/-! ## `urllib.urlencode` (restricted to string keys and values) -/

/-- Bytes that `urllib.parse.quote` never escapes: ASCII alphanumerics and
`_`, `.`, `-`, `~`. -/
def safeByte (b : Nat) : Bool :=
  decide ((48 ≤ b ∧ b ≤ 57) ∨ (65 ≤ b ∧ b ≤ 90) ∨ (97 ≤ b ∧ b ≤ 122) ∨
    b = 95 ∨ b = 46 ∨ b = 45 ∨ b = 126)

/-- An uppercase hexadecimal digit. -/
def hexUpper (n : Nat) : Char :=
  if n < 10 then Char.ofNat (48 + n) else Char.ofNat (55 + n)

/-- `urllib.parse.quote_plus` on one byte: safe bytes pass through, space
becomes `+`, everything else is percent-encoded. -/
def quoteByte (b : Nat) : List Char :=
  if safeByte b then [Char.ofNat b]
  else if b == 32 then ['+']
  else ['%', hexUpper (b / 16 % 16), hexUpper (b % 16)]

/-- `urllib.parse.quote_plus` on a string. -/
def quote_plus (s : String) : String :=
  ⟨((encode s).map quoteByte).flatten⟩

/-- `urlencode` over key/value pairs in insertion order (Python dicts
preserve insertion order). -/
def urlencode (pairs : List (String × String)) : String :=
  String.intercalate "&" (pairs.map fun p => quote_plus p.1 ++ "=" ++ quote_plus p.2)

/-! ## JSON values and Python dictionary access, for the profile document -/

/-- A JSON value as decoded by Python's `json` module. -/
inductive Json where
  | null : Json
  | bool : Bool → Json
  | num : Int → Json
  | str : String → Json
  | arr : List Json → Json
  | obj : List (String × Json) → Json

/-- A profile document entry: a mapping with string keys (`entry[0]` of the
fetched JSON). -/
abbrev Profile := List (String × Json)

/-- Python dictionary lookup `d[key]` as an `Option` (first binding wins). -/
def lookupKey : List (String × Json) → String → Option Json
  | [], _ => none
  | (k, v) :: rest, key => if k == key then some v else lookupKey rest key

/-- Python runtime errors relevant to this module. -/
inductive PyErr where
  | keyError : PyErr
  | typeError : PyErr
deriving DecidableEq

/-- Python subscript `a[key]` with a string key: `KeyError` when the key is
missing, `TypeError` when `a` is not a mapping. -/
def getItem (a : Json) (key : String) : Except PyErr Json :=
  match a with
  | .obj fields =>
      match lookupKey fields key with
      | some v => .ok v
      | none => .error .keyError
  | _ => .error .typeError

/-! ## Validation errors (`InvalidRatingError`, `InvalidSizeError`) -/

/-- The two exception classes of `gravatar.py`, each storing the offending
value (`self.value = value` in `__init__`). -/
inductive GravatarError where
  | InvalidRatingError (value : String) : GravatarError
  | InvalidSizeError (value : Int) : GravatarError
deriving DecidableEq

/-- A Python value that can be stored in an error's `value` field. -/
inductive PyVal where
  | str : String → PyVal
  | int : Int → PyVal
deriving DecidableEq

/-- Python `value + <string literal>`: string concatenation when `value` is
a string, `TypeError` when `value` is an integer. -/
def pyAddStr : PyVal → String → Except PyErr String
  | .str s, t => .ok (s ++ t)
  | .int _, _ => .error .typeError

/-- `InvalidRatingError.__str__`: `self.value + " is not a valid gravatar
rating"`. -/
def invalidRatingErrorStr (value : PyVal) : Except PyErr String :=
  pyAddStr value " is not a valid gravatar rating"

/-- `InvalidSizeError.__str__`: `self.value + " is not a valid image
size"`. -/
def invalidSizeErrorStr (value : PyVal) : Except PyErr String :=
  pyAddStr value " is not a valid image size"

/-! ## The `Gravatar` class -/

/-- The instance state of a `Gravatar` object: the fields set in
`__init__`. -/
structure Gravatar where
  email_hash : String
  secure : Bool
  rating : String
  size : Int
  default : Option String
  thumb : String
  profile : Option Profile

/-- `Gravatar._link_to_img`, as a function of the instance fields it reads:
validate the rating (case-insensitively) and the size, pick the base URL by
`secure`, and assemble `base + hash + '?' + urlencode({'s': size,
'r': rating, ['d': default]})`. -/
def link_to_img (hash : String) (secure : Bool) (rating : String)
    (size : Int) (default : Option String) : Except GravatarError String :=
  if pyLower rating ∉ RATINGS then
    .error (.InvalidRatingError rating)
  else if ¬(MIN_SIZE ≤ size ∧ size ≤ MAX_SIZE) then
    .error (.InvalidSizeError size)
  else
    let url := if secure then SECURE_BASE_URL else BASE_URL
    let options :=
      [("s", toString size), ("r", rating)] ++
        (match default with
         | some d => [("d", d)]
         | none => [])
    .ok (url ++ hash ++ "?" ++ urlencode options)

/-- `_link_to_img` applied to an instance's current fields. -/
def Gravatar.link (g : Gravatar) : Except GravatarError String :=
  link_to_img g.email_hash g.secure g.rating g.size g.default

/-- `Gravatar.__init__`: hash the email, store the options, and eagerly
compute the thumbnail URL (so construction fails on invalid options);
`_profile` starts as `None`. -/
def Gravatar.init (email : String) (secure : Bool) (rating : String)
    (size : Int) (default : Option String) : Except GravatarError Gravatar :=
  let h := emailHash email
  match link_to_img h secure rating size default with
  | .error e => .error e
  | .ok url =>
      .ok { email_hash := h, secure := secure, rating := rating, size := size,
            default := default, thumb := url, profile := none }

/-- The `secure` setter: store the new value, then regenerate the thumbnail
(the regenerated state is returned on success; a validation failure
propagates as the error). -/
def Gravatar.setSecure (g : Gravatar) (value : Bool) : Except GravatarError Gravatar :=
  let g' := { g with secure := value }
  match g'.link with
  | .error e => .error e
  | .ok url => .ok { g' with thumb := url }

/-- The `rating` setter: store the new value, then regenerate the
thumbnail. -/
def Gravatar.setRating (g : Gravatar) (value : String) : Except GravatarError Gravatar :=
  let g' := { g with rating := value }
  match g'.link with
  | .error e => .error e
  | .ok url => .ok { g' with thumb := url }

/-- The `size` setter: store the new value, then regenerate the
thumbnail. -/
def Gravatar.setSize (g : Gravatar) (value : Int) : Except GravatarError Gravatar :=
  let g' := { g with size := value }
  match g'.link with
  | .error e => .error e
  | .ok url => .ok { g' with thumb := url }

/-- The `default` setter: store the new value, then regenerate the
thumbnail. -/
def Gravatar.setDefault (g : Gravatar) (value : Option String) : Except GravatarError Gravatar :=
  let g' := { g with default := value }
  match g'.link with
  | .error e => .error e
  | .ok url => .ok { g' with thumb := url }

/-! ## Profile fetching and views

`_get_profile` performs `json.load(urlopen(url))['entry'][0]` inside a bare
`try`/`except`. The network interaction is modelled by an oracle
`fetchResult : Option Profile`: `some p` when the whole fetch/parse/extract
pipeline would succeed with mapping `p`, `none` for any failure (network
error, malformed JSON, missing or empty `entry` — the bare `except` treats
them all alike).
-/

/-- `Gravatar._get_profile`: on success cache `entry[0]`, on any exception
cache the empty mapping `{}`. -/
def Gravatar.get_profile (fetchResult : Option Profile) (g : Gravatar) : Gravatar :=
  { g with profile := some (match fetchResult with
                            | some p => p
                            | none => []) }

/-- The observable outcome of one access to the `profile` property: the
returned mapping, the instance state afterwards, and whether a network
fetch was issued. -/
structure AccessResult where
  value : Profile
  state : Gravatar
  fetched : Bool

/-- The `profile` property: fetch on first access (`_profile is None`),
afterwards return the cached value. -/
def Gravatar.accessProfile (fetchResult : Option Profile) (g : Gravatar) : AccessResult :=
  match g.profile with
  | some p => ⟨p, g, false⟩
  | none =>
      let g' := g.get_profile fetchResult
      ⟨(g'.profile).getD [], g', true⟩

/-- The `urls` property over a cached profile mapping:
`self.profile['urls']`, with `KeyError` caught and turned into `[]`. -/
def urls (p : Profile) : Json :=
  match lookupKey p "urls" with
  | some v => v
  | none => .arr []

/-- The `accounts` property over a cached profile mapping:
`self.profile['accounts']`, with `KeyError` caught and turned into `[]`. -/
def accounts (p : Profile) : Json :=
  match lookupKey p "accounts" with
  | some v => v
  | none => .arr []

/-- The `ims` property over a cached profile mapping: the code body reads
`self.profile['accounts']` (not an instant-messaging key), with `KeyError`
caught and turned into `[]`. -/
def ims (p : Profile) : Json :=
  match lookupKey p "accounts" with
  | some v => v
  | none => .arr []

/-- The `photos` property over a cached profile mapping:
`self.profile['photos']`, with `KeyError` caught and turned into `[]`. -/
def photos (p : Profile) : Json :=
  match lookupKey p "photos" with
  | some v => v
  | none => .arr []

/-- The `emails` property over a cached profile mapping:
`self.profile['emails']`, with `KeyError` caught and turned into `[]`. -/
def emails (p : Profile) : Json :=
  match lookupKey p "emails" with
  | some v => v
  | none => .arr []

/-- Python `==` between a JSON value and a string literal: true exactly
when the value is an equal string (a boolean or number never equals a
string in Python). -/
def eqStrLit (v : Json) (lit : String) : Bool :=
  match v with
  | .str s => s == lit
  | _ => false

/-- The filtering loop of `verified_accounts`:
`[a for a in accounts if a['verified'] == 'true']`; a subscript failure
(`a` not a mapping, or the key missing) propagates as the error. -/
def filterVerified : List Json → Except PyErr (List Json)
  | [] => .ok []
  | a :: rest => do
      let v ← getItem a "verified"
      let tail ← filterVerified rest
      .ok (if eqStrLit v "true" then a :: tail else tail)

/-- The `verified_accounts` property over a cached profile mapping: filter
the `accounts` value; iterating a non-list value is a `TypeError`. -/
def verified_accounts (p : Profile) : Except PyErr (List Json) :=
  match accounts p with
  | .arr xs => filterVerified xs
  | _ => .error .typeError

/-- Whether an account entry's `verified` field is the literal JSON string
`"true"`. -/
def verifiedIsTrue (a : Json) : Bool :=
  match a with
  | .obj fields =>
      match lookupKey fields "verified" with
      | some v => eqStrLit v "true"
      | none => false
  | _ => false

/-- Whether an account entry is a mapping that has a `verified` key. -/
def hasVerifiedKey (a : Json) : Bool :=
  match a with
  | .obj fields => (lookupKey fields "verified").isSome
  | _ => false

/-- Substring test on character lists (used to speak about query
parameters occurring in a URL). -/
def listContains : List Char → List Char → Bool
  | [], pat => pat.isEmpty
  | c :: rest, pat => pat.isPrefixOf (c :: rest) || listContains rest pat

/-- Substring test on strings. -/
def strContains (s pat : String) : Bool := listContains s.data pat.data

end gravatar

namespace gravatar

/-! ## Support lemmas -/

theorem toNat_ofNat_of_lt (n : Nat) (h : n < 55296) : (Char.ofNat n).toNat = n := by
  have hv : n.isValidChar := Or.inl h
  simp [Char.ofNat, hv, Char.ofNatAux, Char.toNat, UInt32.toNat, UInt32.ofNat]

theorem pyToLower_idem (c : Char) : pyToLower (pyToLower c) = pyToLower c := by
  by_cases h : 65 ≤ c.toNat ∧ c.toNat ≤ 90
  · have ht : (Char.ofNat (c.toNat + 32)).toNat = c.toNat + 32 :=
      toNat_ofNat_of_lt _ (by omega)
    simp only [pyToLower, if_pos h, ht]
    rw [if_neg (by omega)]
  · simp only [pyToLower, if_neg h]

theorem pySpace_pyToLower (c : Char) : pySpace (pyToLower c) = pySpace c := by
  by_cases h : 65 ≤ c.toNat ∧ c.toNat ≤ 90
  · have ht : (Char.ofNat (c.toNat + 32)).toNat = c.toNat + 32 :=
      toNat_ofNat_of_lt _ (by omega)
    simp only [pyToLower, if_pos h, pySpace, ht]
    simp only [decide_eq_decide]
    omega
  · simp only [pyToLower, if_neg h]

theorem stripList_map_pyToLower (l : List Char) :
    stripList (l.map pyToLower) = (stripList l).map pyToLower := by
  have hp : (pySpace ∘ pyToLower) = pySpace := funext pySpace_pyToLower
  unfold stripList
  rw [List.dropWhile_map, hp, ← List.map_reverse, List.dropWhile_map, hp,
    ← List.map_reverse]

theorem dropWhile_rev_dropWhile {α : Type} (p : α → Bool) (x : List α)
    (hx : List.dropWhile p x = x) :
    List.dropWhile p ((List.dropWhile p x.reverse).reverse) =
      (List.dropWhile p x.reverse).reverse := by
  have hdrop : List.drop (x.reverse.takeWhile p).length x.reverse =
      List.dropWhile p x.reverse := by
    have h := List.drop_left (x.reverse.takeWhile p) (x.reverse.dropWhile p)
    rwa [List.takeWhile_append_dropWhile] at h
  rw [← hdrop, List.reverse_drop, List.reverse_reverse, List.length_reverse]
  rw [List.dropWhile_eq_self_iff]
  intro hl
  have hxlen : 0 < x.length := by
    have := List.length_take (x.length - (x.reverse.takeWhile p).length) x
    omega
  have hx0 := List.dropWhile_eq_self_iff.mp hx hxlen
  have hget : (List.take (x.length - (x.reverse.takeWhile p).length) x).get ⟨0, hl⟩ =
      x.get ⟨0, hxlen⟩ := by
    simp [List.get_eq_getElem, List.getElem_take]
  rw [hget]
  exact hx0

theorem stripList_idem (l : List Char) :
    stripList (stripList l) = stripList l := by
  have h1 : (l.dropWhile pySpace).dropWhile pySpace = l.dropWhile pySpace :=
    List.dropWhile_idempotent _ _
  have h2 := dropWhile_rev_dropWhile pySpace (l.dropWhile pySpace) h1
  show ((((((l.dropWhile pySpace).reverse.dropWhile pySpace).reverse).dropWhile
      pySpace).reverse).dropWhile pySpace).reverse = stripList l
  rw [h2, List.reverse_reverse, List.dropWhile_idempotent]
  rfl

theorem normalize_idem (s : String) :
    pyLower (pyStrip (pyLower (pyStrip s))) = pyLower (pyStrip s) := by
  show (⟨(stripList ((stripList s.data).map pyToLower)).map pyToLower⟩ : String) =
    ⟨(stripList s.data).map pyToLower⟩
  rw [stripList_map_pyToLower, stripList_idem, List.map_map,
    show (pyToLower ∘ pyToLower) = pyToLower from funext pyToLower_idem]

theorem utf8Bytes_ascii (c : Char) (h : c.toNat < 128) :
    utf8Bytes c = [c.toNat] := by
  simp [utf8Bytes, h]

theorem quoteByte_safe (b : Nat) (h : safeByte b = true) :
    quoteByte b = [Char.ofNat b] := by
  simp [quoteByte, h]

theorem quote_plus_safe_list (l : List Char)
    (h : ∀ c ∈ l, c.toNat < 128 ∧ safeByte c.toNat = true) :
    (((l.map utf8Bytes).flatten).map quoteByte).flatten = l := by
  induction l with
  | nil => rfl
  | cons c rest ih =>
      have hc := h c (List.mem_cons_self c rest)
      have hr : ∀ x ∈ rest, x.toNat < 128 ∧ safeByte x.toNat = true :=
        fun x hx => h x (List.mem_cons_of_mem c hx)
      simp only [List.map_cons, List.flatten_cons, utf8Bytes_ascii c hc.1,
        List.map_append, List.flatten_append, ih hr, List.map_nil,
        List.flatten_nil, quoteByte_safe _ hc.2, Char.ofNat_toNat,
        List.singleton_append, List.nil_append, List.cons_append]

theorem quote_plus_safe (s : String)
    (h : ∀ c ∈ s.data, c.toNat < 128 ∧ safeByte c.toNat = true) :
    quote_plus s = s :=
  congrArg String.mk (quote_plus_safe_list s.data h)

theorem ratingChar_safe (c : Char)
    (h : pyToLower c = 'g' ∨ pyToLower c = 'p' ∨ pyToLower c = 'r' ∨
      pyToLower c = 'x') :
    c.toNat < 128 ∧ safeByte c.toNat = true := by
  by_cases hr : 65 ≤ c.toNat ∧ c.toNat ≤ 90
  · refine ⟨by omega, ?_⟩
    simp only [safeByte, decide_eq_true_eq]
    omega
  · have hfix : pyToLower c = c := by simp only [pyToLower, if_neg hr]
    rw [hfix] at h
    rcases h with h | h | h | h <;> subst h <;> exact ⟨by decide, by decide⟩

theorem rating_chars_safe (r : String) (hr : pyLower r ∈ RATINGS) :
    ∀ c ∈ r.data, c.toNat < 128 ∧ safeByte c.toNat = true := by
  intro c hc
  have hmem : pyToLower c ∈ (pyLower r).data :=
    List.mem_map_of_mem pyToLower hc
  apply ratingChar_safe
  simp only [RATINGS, List.mem_cons, List.not_mem_nil, or_false] at hr
  rcases hr with h | h | h | h <;> rw [h] at hmem <;>
    simp only [show ("g" : String).data = ['g'] from rfl,
      show ("pg" : String).data = ['p', 'g'] from rfl,
      show ("r" : String).data = ['r'] from rfl,
      show ("x" : String).data = ['x'] from rfl,
      List.mem_cons, List.not_mem_nil, or_false] at hmem
  · exact Or.inl hmem
  · rcases hmem with h2 | h2
    · exact Or.inr (Or.inl h2)
    · exact Or.inl h2
  · exact Or.inr (Or.inr (Or.inl hmem))
  · exact Or.inr (Or.inr (Or.inr hmem))

theorem quote_plus_rating (r : String) (hr : pyLower r ∈ RATINGS) :
    quote_plus r = r :=
  quote_plus_safe r (rating_chars_safe r hr)

theorem quote_plus_nat_small :
    ∀ n : Nat, n < 513 → quote_plus (toString n) = toString n := by decide

theorem quote_plus_size (size : Int) (h1 : MIN_SIZE ≤ size)
    (h2 : size ≤ MAX_SIZE) :
    quote_plus (toString size) = toString size := by
  simp only [MIN_SIZE, MAX_SIZE] at h1 h2
  obtain ⟨n, rfl⟩ : ∃ n : Nat, size = (n : Int) :=
    ⟨size.toNat, (Int.toNat_of_nonneg (by omega)).symm⟩
  have hts : toString ((n : Int)) = toString n := rfl
  rw [hts]
  exact quote_plus_nat_small n (by omega)

/-! ## Claim theorems -/

/-- C1: constructing a `Gravatar` for `"gridaphobe@gmail.com"` with all
defaults (`secure = false`, `rating = "g"`, `size = 80`, no default image)
succeeds and yields exactly the thumbnail URL
`http://www.gravatar.com/avatar/16b87da510d278999c892cdbdd55c1b6?s=80&r=g`. -/
theorem thumb_url_default_options :
    (Gravatar.init "gridaphobe@gmail.com" false "g" 80 none).map (fun g => g.thumb) =
      .ok "http://www.gravatar.com/avatar/16b87da510d278999c892cdbdd55c1b6?s=80&r=g" := rfl

/-- C2 (counterexample): for the valid mixed-case rating `"G"` the
construction succeeds but the thumbnail URL carries the rating with its
original letter case (`r=G`); the lowercased rating `g` does not occur as
a query parameter, so the `r` parameter is not the lowercased rating. -/
theorem thumb_rating_not_lowercased :
    (Gravatar.init "gridaphobe@gmail.com" false "G" 80 none).map (fun g => g.thumb) =
      .ok "http://www.gravatar.com/avatar/16b87da510d278999c892cdbdd55c1b6?s=80&r=G" ∧
    strContains "http://www.gravatar.com/avatar/16b87da510d278999c892cdbdd55c1b6?s=80&r=G"
      "r=g" = false ∧
    strContains "http://www.gravatar.com/avatar/16b87da510d278999c892cdbdd55c1b6?s=80&r=G"
      "r=G" = true ∧
    pyLower "G" = "g" := ⟨rfl, rfl, rfl, rfl⟩

/-- C2 (amended): for every rating whose lowercasing is in
`{g, pg, r, x}` and every size in `[1, 512]`, construction succeeds and
the thumbnail URL's `s` parameter is exactly the given size and its `r`
parameter is exactly the rating as passed (its original letter case, not
its lowercasing). -/
theorem valid_options_thumb (email : String) (secure : Bool) (rating : String)
    (size : Int) (default : Option String)
    (hr : pyLower rating ∈ RATINGS)
    (hs : MIN_SIZE ≤ size ∧ size ≤ MAX_SIZE) :
    (Gravatar.init email secure rating size default).map (fun g => g.thumb) =
      .ok ((if secure then SECURE_BASE_URL else BASE_URL) ++ emailHash email ++ "?" ++
        ("s=" ++ toString size ++ "&r=" ++ rating ++
          (match default with
           | some d => "&d=" ++ quote_plus d
           | none => ""))) := by
  have h1 : ¬(pyLower rating ∉ RATINGS) := not_not_intro hr
  have h2 : ¬¬(MIN_SIZE ≤ size ∧ size ≤ MAX_SIZE) := not_not_intro hs
  rcases default with _ | d
  · simp only [Gravatar.init, link_to_img, if_neg h1, if_neg h2, Except.map]
    refine congrArg Except.ok ?_
    show (if secure then SECURE_BASE_URL else BASE_URL) ++ emailHash email ++ "?" ++
      urlencode [("s", toString size), ("r", rating)] = _
    rw [show urlencode [("s", toString size), ("r", rating)] =
      quote_plus "s" ++ "=" ++ quote_plus (toString size) ++ "&" ++
        (quote_plus "r" ++ "=" ++ quote_plus rating) from rfl]
    rw [quote_plus_size size hs.1 hs.2, quote_plus_rating rating hr]
    simp only [String.append_assoc, String.append_empty]
    rfl
  · simp only [Gravatar.init, link_to_img, if_neg h1, if_neg h2, Except.map]
    refine congrArg Except.ok ?_
    show (if secure then SECURE_BASE_URL else BASE_URL) ++ emailHash email ++ "?" ++
      urlencode [("s", toString size), ("r", rating), ("d", d)] = _
    rw [show urlencode [("s", toString size), ("r", rating), ("d", d)] =
      quote_plus "s" ++ "=" ++ quote_plus (toString size) ++ "&" ++
        (quote_plus "r" ++ "=" ++ quote_plus rating) ++ "&" ++
        (quote_plus "d" ++ "=" ++ quote_plus d) from rfl]
    rw [quote_plus_size size hs.1 hs.2, quote_plus_rating rating hr]
    simp only [String.append_assoc]
    rfl

/-- Witness for C2 (amended) at the concrete input
`("gridaphobe@gmail.com", false, "PG", 3, none)`. -/
theorem valid_options_thumb_witness :
    pyLower "PG" ∈ RATINGS ∧ (MIN_SIZE ≤ (3 : Int) ∧ (3 : Int) ≤ MAX_SIZE) ∧
    (Gravatar.init "gridaphobe@gmail.com" false "PG" 3 none).map (fun g => g.thumb) =
      .ok ((if false then SECURE_BASE_URL else BASE_URL) ++
        emailHash "gridaphobe@gmail.com" ++ "?" ++
        ("s=" ++ toString (3 : Int) ++ "&r=" ++ "PG" ++ "")) :=
  ⟨by decide, ⟨by decide, by decide⟩,
    valid_options_thumb "gridaphobe@gmail.com" false "PG" 3 none (by decide)
      ⟨by decide, by decide⟩⟩

/-- C3: an invalid rating (lowercasing outside `{g, pg, r, x}`) makes both
construction and the rating setter raise `InvalidRatingError` carrying the
original value; an invalid size (outside `[1, 512]`) makes both
construction (with a valid rating) and the size setter (on an instance
with a valid rating) raise `InvalidSizeError` carrying the original
value. -/
theorem invalid_options_raise :
    (∀ (email : String) (secure : Bool) (rating : String) (size : Int)
        (default : Option String), pyLower rating ∉ RATINGS →
        Gravatar.init email secure rating size default =
          .error (.InvalidRatingError rating)) ∧
    (∀ (g : Gravatar) (rating : String), pyLower rating ∉ RATINGS →
        g.setRating rating = .error (.InvalidRatingError rating)) ∧
    (∀ (email : String) (secure : Bool) (rating : String) (size : Int)
        (default : Option String), pyLower rating ∈ RATINGS →
        ¬(MIN_SIZE ≤ size ∧ size ≤ MAX_SIZE) →
        Gravatar.init email secure rating size default =
          .error (.InvalidSizeError size)) ∧
    (∀ (g : Gravatar) (size : Int), pyLower g.rating ∈ RATINGS →
        ¬(MIN_SIZE ≤ size ∧ size ≤ MAX_SIZE) →
        g.setSize size = .error (.InvalidSizeError size)) := by
  refine ⟨?_, ?_, ?_, ?_⟩
  · intro email secure rating size default h
    simp only [Gravatar.init, link_to_img, if_pos h]
  · intro g rating h
    simp only [Gravatar.setRating, Gravatar.link, link_to_img, if_pos h]
  · intro email secure rating size default hr hs
    simp only [Gravatar.init, link_to_img, if_neg (not_not_intro hr), if_pos hs]
  · intro g size hr hs
    simp only [Gravatar.setSize, Gravatar.link, link_to_img,
      if_neg (not_not_intro hr), if_pos hs]

/-- Witness for C3 at rating `"bad"` and size `513`, exercising the
constructor and the setters on a concrete instance. -/
theorem invalid_options_raise_witness :
    (pyLower "bad" ∉ RATINGS ∧ ¬(MIN_SIZE ≤ (513 : Int) ∧ (513 : Int) ≤ MAX_SIZE) ∧
      pyLower "g" ∈ RATINGS ∧
      pyLower (Gravatar.mk "abc" false "g" 80 none "u" none).rating ∈ RATINGS) ∧
    Gravatar.init "a@b.c" false "bad" 80 none = .error (.InvalidRatingError "bad") ∧
    (Gravatar.mk "abc" false "g" 80 none "u" none).setRating "bad" =
      .error (.InvalidRatingError "bad") ∧
    Gravatar.init "a@b.c" false "g" 513 none = .error (.InvalidSizeError 513) ∧
    (Gravatar.mk "abc" false "g" 80 none "u" none).setSize 513 =
      .error (.InvalidSizeError 513) :=
  ⟨⟨by decide, by decide, by decide, by decide⟩,
    invalid_options_raise.1 "a@b.c" false "bad" 80 none (by decide),
    invalid_options_raise.2.1 (Gravatar.mk "abc" false "g" 80 none "u" none)
      "bad" (by decide),
    invalid_options_raise.2.2.1 "a@b.c" false "g" 513 none (by decide) (by decide),
    invalid_options_raise.2.2.2 (Gravatar.mk "abc" false "g" 80 none "u" none)
      513 (by decide) (by decide)⟩

/-- C4: whenever a setter for `secure`, `rating`, `size` or `default`
succeeds, the stored thumbnail of the resulting state equals the URL
freshly assembled (`_link_to_img`) from the state's current option values
— the cached thumbnail is never stale. -/
theorem setter_thumb_consistent (g : Gravatar) :
    (∀ (v : Bool) (g' : Gravatar), g.setSecure v = .ok g' →
        g'.link = .ok g'.thumb) ∧
    (∀ (v : String) (g' : Gravatar), g.setRating v = .ok g' →
        g'.link = .ok g'.thumb) ∧
    (∀ (v : Int) (g' : Gravatar), g.setSize v = .ok g' →
        g'.link = .ok g'.thumb) ∧
    (∀ (v : Option String) (g' : Gravatar), g.setDefault v = .ok g' →
        g'.link = .ok g'.thumb) := by
  refine ⟨?_, ?_, ?_, ?_⟩
  · intro v g' h
    simp only [Gravatar.setSecure] at h
    cases hl : Gravatar.link { g with secure := v } with
    | error e => rw [hl] at h; exact absurd h (by simp)
    | ok url =>
        rw [hl] at h
        have hg : g' = { g with secure := v, thumb := url } :=
          (Except.ok.inj h).symm
        subst hg
        show Gravatar.link { g with secure := v } = .ok url
        exact hl
  · intro v g' h
    simp only [Gravatar.setRating] at h
    cases hl : Gravatar.link { g with rating := v } with
    | error e => rw [hl] at h; exact absurd h (by simp)
    | ok url =>
        rw [hl] at h
        have hg : g' = { g with rating := v, thumb := url } :=
          (Except.ok.inj h).symm
        subst hg
        show Gravatar.link { g with rating := v } = .ok url
        exact hl
  · intro v g' h
    simp only [Gravatar.setSize] at h
    cases hl : Gravatar.link { g with size := v } with
    | error e => rw [hl] at h; exact absurd h (by simp)
    | ok url =>
        rw [hl] at h
        have hg : g' = { g with size := v, thumb := url } :=
          (Except.ok.inj h).symm
        subst hg
        show Gravatar.link { g with size := v } = .ok url
        exact hl
  · intro v g' h
    simp only [Gravatar.setDefault] at h
    cases hl : Gravatar.link { g with default := v } with
    | error e => rw [hl] at h; exact absurd h (by simp)
    | ok url =>
        rw [hl] at h
        have hg : g' = { g with default := v, thumb := url } :=
          (Except.ok.inj h).symm
        subst hg
        show Gravatar.link { g with default := v } = .ok url
        exact hl

/-- Witness for C4: on a concrete instance, each of the four setters is
run with a concrete new value and the refreshed thumbnail matches the
freshly assembled URL. -/
theorem setter_thumb_consistent_witness :
    ((Gravatar.mk "abc" false "g" 80 none "u" none).setSecure true =
      .ok (Gravatar.mk "abc" true "g" 80 none
        "https://secure.gravatar.com/avatar/abc?s=80&r=g" none) ∧
     (Gravatar.mk "abc" true "g" 80 none
        "https://secure.gravatar.com/avatar/abc?s=80&r=g" none).link =
      .ok "https://secure.gravatar.com/avatar/abc?s=80&r=g") ∧
    ((Gravatar.mk "abc" false "g" 80 none "u" none).setRating "pg" =
      .ok (Gravatar.mk "abc" false "pg" 80 none
        "http://www.gravatar.com/avatar/abc?s=80&r=pg" none) ∧
     (Gravatar.mk "abc" false "pg" 80 none
        "http://www.gravatar.com/avatar/abc?s=80&r=pg" none).link =
      .ok "http://www.gravatar.com/avatar/abc?s=80&r=pg") ∧
    ((Gravatar.mk "abc" false "g" 80 none "u" none).setSize 100 =
      .ok (Gravatar.mk "abc" false "g" 100 none
        "http://www.gravatar.com/avatar/abc?s=100&r=g" none) ∧
     (Gravatar.mk "abc" false "g" 100 none
        "http://www.gravatar.com/avatar/abc?s=100&r=g" none).link =
      .ok "http://www.gravatar.com/avatar/abc?s=100&r=g") ∧
    ((Gravatar.mk "abc" false "g" 80 none "u" none).setDefault (some "mm") =
      .ok (Gravatar.mk "abc" false "g" 80 (some "mm")
        "http://www.gravatar.com/avatar/abc?s=80&r=g&d=mm" none) ∧
     (Gravatar.mk "abc" false "g" 80 (some "mm")
        "http://www.gravatar.com/avatar/abc?s=80&r=g&d=mm" none).link =
      .ok "http://www.gravatar.com/avatar/abc?s=80&r=g&d=mm") :=
  ⟨⟨rfl, (setter_thumb_consistent (Gravatar.mk "abc" false "g" 80 none "u" none)).1
      true _ rfl⟩,
   ⟨rfl, (setter_thumb_consistent (Gravatar.mk "abc" false "g" 80 none "u" none)).2.1
      "pg" _ rfl⟩,
   ⟨rfl, (setter_thumb_consistent (Gravatar.mk "abc" false "g" 80 none "u" none)).2.2.1
      100 _ rfl⟩,
   ⟨rfl, (setter_thumb_consistent (Gravatar.mk "abc" false "g" 80 none "u" none)).2.2.2
      (some "mm") _ rfl⟩⟩

/-- C8: for every email string, the hash equals the hash of the email
trimmed and lowercased (the hash only depends on the normalized email);
in particular `"Foo@Bar.com "` and `"foo@bar.com"` hash identically. -/
theorem hash_normalization_insensitive :
    (∀ e : String, emailHash e = emailHash (pyLower (pyStrip e))) ∧
    emailHash "Foo@Bar.com " = emailHash "foo@bar.com" := by
  constructor
  · intro e
    show md5hex (encode (pyLower (pyStrip e))) =
      md5hex (encode (pyLower (pyStrip (pyLower (pyStrip e)))))
    rw [normalize_idem]
  · rfl

/-- C9: construction with the out-of-range size 513 raises
`InvalidSizeError` carrying 513, but converting that error to its message
string fails with a `TypeError` (`self.value + " is not a valid image
size"` adds an `int` to a `str`), while the analogous conversion of
`InvalidRatingError` (whose value is a string) succeeds. -/
theorem invalid_size_error_str_raises :
    Gravatar.init "gridaphobe@gmail.com" false "g" 513 none =
      .error (.InvalidSizeError 513) ∧
    invalidSizeErrorStr (.int 513) = .error .typeError ∧
    invalidRatingErrorStr (.str "bad") =
      .ok "bad is not a valid gravatar rating" := ⟨rfl, rfl, rfl⟩

/-- C5: the profile is fetched at most once per instance. A first access
(cache `none`) issues one fetch and caches its result — the empty mapping
on any failure, with no error surfaced (the access function is total); an
access on a populated cache returns the cached mapping with no fetch; and
any access following an access issues no fetch and returns the same
value, whatever the second fetch oracle would have produced. -/
theorem profile_fetched_once (g : Gravatar) (fetchResult fr2 : Option Profile) :
    (g.profile = none →
        g.accessProfile fetchResult =
          ⟨fetchResult.getD [],
            { g with profile := some (fetchResult.getD []) }, true⟩) ∧
    (∀ p, g.profile = some p →
        g.accessProfile fetchResult = ⟨p, g, false⟩) ∧
    ((g.accessProfile fetchResult).state.accessProfile fr2 =
      ⟨(g.accessProfile fetchResult).value,
        (g.accessProfile fetchResult).state, false⟩) := by
  refine ⟨?_, ?_, ?_⟩
  · intro h
    simp only [Gravatar.accessProfile, h, Gravatar.get_profile]
    cases fetchResult <;> rfl
  · intro p h
    simp only [Gravatar.accessProfile, h]
  · cases hp : g.profile with
    | none =>
        simp only [Gravatar.accessProfile, hp, Gravatar.get_profile]
        cases fetchResult <;> rfl
    | some p =>
        simp only [Gravatar.accessProfile, hp]

/-- Witness for C5: a fresh instance whose first access is a failed fetch
caches `{}` and returns it; an instance with a populated cache returns it
without fetching; a second access after a first returns the cached value
with no fetch. -/
theorem profile_fetched_once_witness :
    ((Gravatar.mk "abc" false "g" 80 none "u" none).profile = none ∧
     (Gravatar.mk "abc" false "g" 80 none "u" none).accessProfile none =
       ⟨[], Gravatar.mk "abc" false "g" 80 none "u" (some []), true⟩) ∧
    ((Gravatar.mk "abc" false "g" 80 none "u"
        (some [("k", Json.str "v")])).profile = some [("k", Json.str "v")] ∧
     (Gravatar.mk "abc" false "g" 80 none "u"
        (some [("k", Json.str "v")])).accessProfile none =
       ⟨[("k", Json.str "v")],
        Gravatar.mk "abc" false "g" 80 none "u" (some [("k", Json.str "v")]),
        false⟩) ∧
    ((Gravatar.mk "abc" false "g" 80 none "u" none).accessProfile
        none).state.accessProfile (some [("k", Json.str "v")]) =
      ⟨((Gravatar.mk "abc" false "g" 80 none "u" none).accessProfile none).value,
       ((Gravatar.mk "abc" false "g" 80 none "u" none).accessProfile none).state,
       false⟩ :=
  ⟨⟨rfl, (profile_fetched_once (Gravatar.mk "abc" false "g" 80 none "u" none)
      none none).1 rfl⟩,
   ⟨rfl, (profile_fetched_once (Gravatar.mk "abc" false "g" 80 none "u"
      (some [("k", Json.str "v")])) none none).2.1 [("k", Json.str "v")] rfl⟩,
   (profile_fetched_once (Gravatar.mk "abc" false "g" 80 none "u" none)
      none (some [("k", Json.str "v")])).2.2⟩

theorem filterVerified_spec (xs : List Json) (h : xs.all hasVerifiedKey = true) :
    filterVerified xs = .ok (xs.filter verifiedIsTrue) := by
  induction xs with
  | nil => rfl
  | cons a rest ih =>
      simp only [List.all_cons, Bool.and_eq_true] at h
      obtain ⟨ha, hrest⟩ := h
      cases a with
      | obj fields =>
          cases hlk : lookupKey fields "verified" with
          | none => rw [hasVerifiedKey, hlk] at ha; exact absurd ha (by simp)
          | some v =>
              simp only [filterVerified, getItem, hlk, ih hrest, bind,
                Except.bind, List.filter_cons]
              simp only [verifiedIsTrue, hlk]
      | null => simp [hasVerifiedKey] at ha
      | bool b => simp [hasVerifiedKey] at ha
      | num n => simp [hasVerifiedKey] at ha
      | str s => simp [hasVerifiedKey] at ha
      | arr l => simp [hasVerifiedKey] at ha

/-- C6: for every cached profile whose `accounts` value is a list of
mappings each carrying a `verified` key, `verified_accounts` returns
exactly the entries whose `verified` field is the literal JSON string
`"true"` (entries with boolean `true` or string `"false"` are
excluded by `verifiedIsTrue`). -/
theorem verified_accounts_spec (p : Profile) (xs : List Json)
    (ha : accounts p = .arr xs) (hall : xs.all hasVerifiedKey = true) :
    verified_accounts p = .ok (xs.filter verifiedIsTrue) := by
  simp only [verified_accounts, ha]
  exact filterVerified_spec xs hall

/-- Witness for C6: a profile with three account entries — `verified`
equal to the string `"true"`, the boolean `true`, and the string
`"false"` — keeps exactly the first entry. -/
theorem verified_accounts_spec_witness :
    accounts [("accounts", Json.arr
        [Json.obj [("verified", Json.str "true"), ("name", Json.str "a")],
         Json.obj [("verified", Json.bool true)],
         Json.obj [("verified", Json.str "false")]])] =
      .arr [Json.obj [("verified", Json.str "true"), ("name", Json.str "a")],
            Json.obj [("verified", Json.bool true)],
            Json.obj [("verified", Json.str "false")]] ∧
    ([Json.obj [("verified", Json.str "true"), ("name", Json.str "a")],
      Json.obj [("verified", Json.bool true)],
      Json.obj [("verified", Json.str "false")]].all hasVerifiedKey = true) ∧
    verified_accounts [("accounts", Json.arr
        [Json.obj [("verified", Json.str "true"), ("name", Json.str "a")],
         Json.obj [("verified", Json.bool true)],
         Json.obj [("verified", Json.str "false")]])] =
      .ok [Json.obj [("verified", Json.str "true"), ("name", Json.str "a")]] :=
  ⟨rfl, rfl,
    verified_accounts_spec
      [("accounts", Json.arr
        [Json.obj [("verified", Json.str "true"), ("name", Json.str "a")],
         Json.obj [("verified", Json.bool true)],
         Json.obj [("verified", Json.str "false")]])]
      [Json.obj [("verified", Json.str "true"), ("name", Json.str "a")],
       Json.obj [("verified", Json.bool true)],
       Json.obj [("verified", Json.str "false")]] rfl rfl⟩

/-- C7: each derived view returns the empty sequence rather than failing
when its fixed key is absent from the cached profile mapping
(`verified_accounts`, whose fixed key is `accounts`, likewise yields the
empty list). -/
theorem views_missing_key_empty (p : Profile) :
    (lookupKey p "urls" = none → urls p = .arr []) ∧
    (lookupKey p "accounts" = none →
      accounts p = .arr [] ∧ ims p = .arr [] ∧ verified_accounts p = .ok []) ∧
    (lookupKey p "photos" = none → photos p = .arr []) ∧
    (lookupKey p "emails" = none → emails p = .arr []) := by
  refine ⟨?_, ?_, ?_, ?_⟩ <;> intro h
  · simp only [urls, h]
  · refine ⟨?_, ?_, ?_⟩
    · simp only [accounts, h]
    · simp only [ims, h]
    · simp only [verified_accounts, accounts, h]
      rfl
  · simp only [photos, h]
  · simp only [emails, h]

/-- Witness for C7: a profile mapping with none of the view keys
present yields the empty sequence from every view. -/
theorem views_missing_key_empty_witness :
    (urls [("name", Json.str "x")] = .arr [] ∧
     accounts [("name", Json.str "x")] = .arr [] ∧
     ims [("name", Json.str "x")] = .arr [] ∧
     verified_accounts [("name", Json.str "x")] = .ok [] ∧
     photos [("name", Json.str "x")] = .arr [] ∧
     emails [("name", Json.str "x")] = .arr []) :=
  ⟨(views_missing_key_empty [("name", Json.str "x")]).1 rfl,
   ((views_missing_key_empty [("name", Json.str "x")]).2.1 rfl).1,
   ((views_missing_key_empty [("name", Json.str "x")]).2.1 rfl).2.1,
   ((views_missing_key_empty [("name", Json.str "x")]).2.1 rfl).2.2,
   (views_missing_key_empty [("name", Json.str "x")]).2.2.1 rfl,
   (views_missing_key_empty [("name", Json.str "x")]).2.2.2 rfl⟩

/-- C10: the `ims` view reads the profile key `accounts` (not an
instant-messaging key), so it coincides with the `accounts` view on every
cached profile mapping. -/
theorem ims_eq_accounts : ∀ p : Profile, ims p = accounts p := fun _ => rfl

end gravatar
